import Mathlib

/-!
Shallow embedding of `src/main.py` of the Video-processing repository.

The module exposes six operations (`video_to_audio`, `concatenate_videos`,
`trim_video`, `resize_video`, `extract_audio_segment`, `get_video_info`),
each of which validates its inputs, opens media through the external
moviepy engine, delegates the transform, and returns a Python dict.

Modelling choices:
- Python dicts are association lists `List (String × Val)` built exactly
  as the dict literals in the source, in the same key order.
- Python floats are modelled as rationals `ℚ`.
- The filesystem and the external media engine form a `World`:
  `fs` maps a path to the metadata of an existing file (`none` = the file
  does not exist, i.e. `os.path.exists` is false); `openErr`/`writeErr`
  inject the exceptions the engine may raise at the
  `VideoFileClip`/`AudioFileClip` constructor and at the
  `write_audiofile`/`write_videofile` call sites.
- Side effects are recorded in a `Trace`: file-handle opens and closes,
  write attempts, `os.makedirs` calls, and the message of the engine
  exception that fired, if any.  A derived clip (`subclipped`, `resized`,
  `concatenate_videoclips`) shares the reader of the file-backed clip it
  came from, so only `VideoFileClip`/`AudioFileClip` constructions count
  as opens and only `close()` on those clips counts as a close.
-/

namespace MainPy

/-- Metadata of a media file as reported by the engine and the filesystem:
`duration`/`fps` in seconds / frames per second, pixel dimensions `w`/`h`,
whether the file has an audio track, and its size in bytes. -/
structure MediaProps where
  duration : ℚ
  fps : ℚ
  w : ℤ
  h : ℤ
  hasAudio : Bool
  sizeBytes : ℕ
deriving DecidableEq, Repr

/-- Values stored in the Python result dicts. -/
inductive Val where
  | b : Bool → Val
  | s : String → Val
  | q : ℚ → Val
  | i : ℤ → Val
  | list : List Val → Val
  | dict : List (String × Val) → Val
deriving Repr

/-- A Python dict, modelled as an association list in insertion order. -/
abbrev Dict := List (String × Val)

/-- Dict lookup (first binding of the key wins, as in a Python dict built
from distinct literal keys). -/
def lookupKey (d : Dict) (k : String) : Option Val :=
  List.lookup k d

/-- Trace of the side effects of one operation call: `opens` counts
`VideoFileClip`/`AudioFileClip` constructions, `closes` counts `close()`
calls on those file-backed clips, `writes` counts attempts to write an
output file, `mkdirs` counts `os.makedirs` calls (the module never makes
any), and `raised` holds the message of the engine exception that fired
during the call, if any. -/
structure Trace where
  opens : ℕ
  closes : ℕ
  writes : ℕ
  mkdirs : ℕ
  raised : Option String
deriving DecidableEq, Repr

/-- The environment of a call: the filesystem plus the exception behaviour
of the media engine.  `fs p = none` means `os.path.exists(p)` is false;
`openErr p = some e` means the clip constructor raises with message `e`;
`writeErr = some e` means the write call raises with message `e`. -/
structure World where
  fs : String → Option MediaProps
  openErr : String → Option String
  writeErr : Option String

/-- Every failure return in the source is the literal dict
`{"success": False, "error": msg, "error_code": code}`. -/
def failDict (msg code : String) : Dict :=
  [("success", Val.b false), ("error", Val.s msg), ("error_code", Val.s code)]

/-- Split of a character list at every occurrence of `sep` (the splitting
behind `os.path`; the result is never empty). -/
def splitChars (sep : Char) : List Char → List (List Char)
  | [] => [[]]
  | c :: cs =>
      if c = sep then [] :: splitChars sep cs
      else
        match splitChars sep cs with
        | [] => [[c]]
        | g :: gs => (c :: g) :: gs

/-- Characters after the last slash. -/
def basenameChars (cs : List Char) : List Char :=
  (splitChars '/' cs).getLastD cs

/-- Model of Python `os.path.basename`: the component after the last slash. -/
def basename (p : String) : String :=
  String.mk (basenameChars p.data)

/-- Extension characters of a basename: its suffix from the last dot, where
the leading dots of the basename do not start an extension. -/
def splitextExtChars (b : List Char) : List Char :=
  match splitChars '.' (b.drop (b.takeWhile (fun c => c = '.')).length) with
  | [] => []
  | [_] => []
  | parts => '.' :: parts.getLastD []

/-- Model of the extension part of Python `os.path.splitext` (the dots
considered are those of the final path component). -/
def splitextExt (p : String) : String :=
  String.mk (splitextExtChars (basenameChars p.data))

/-- Model of the root part of Python `os.path.splitext`: the input with the
extension removed. -/
def splitextBase (p : String) : String :=
  String.mk (p.data.take
    (p.data.length - (splitextExtChars (basenameChars p.data)).length))

/-- Whether `root` is a leading path prefix of `p`. -/
def underRoot (root p : String) : Bool :=
  List.isPrefixOf root.data p.data

/-- Modelled from the spec: the external engine's sub-clip of (start, end)
has duration end − start ("resulting clip duration equals end − start").
`subclipped` itself is moviepy code, not part of this repository. -/
def subclipDuration (s e : ℚ) : ℚ := e - s

/-- Modelled from the spec: `concatenate_videoclips` joins the ordered clip
sequence, so the composed duration is the sum of the clip durations. -/
def concatDuration (ds : List ℚ) : ℚ := ds.sum

/-- Modelled from the spec: engine resize with a uniform scale factor,
new = (round(orig_w·scale), round(orig_h·scale)).  `resized` itself is
moviepy code, not part of this repository. -/
def resizedScale (ow oh : ℤ) (sc : ℚ) : ℤ × ℤ :=
  (round ((ow : ℚ) * sc), round ((oh : ℚ) * sc))

/-- Modelled from the spec: engine resize to an explicit (width, height),
used verbatim, aspect ratio not preserved. -/
def resizedNewSize (nw nh : ℤ) : ℤ × ℤ := (nw, nh)

/-- Modelled from the spec: engine resize by target width, the height
derived by aspect ratio: new_height = round(orig_h · width / orig_w). -/
def resizedWidth (ow oh nw : ℤ) : ℤ × ℤ :=
  (nw, round ((oh : ℚ) * nw / ow))

/-- Modelled from the spec: engine resize by target height, the width
derived by aspect ratio: new_width = round(orig_w · height / orig_h). -/
def resizedHeight (ow oh nh : ℤ) : ℤ × ℤ :=
  (round ((ow : ℚ) * nh / oh), nh)

/-- Output-path resolution of `video_to_audio` (src/main.py lines 59-61):
an explicit path, or `f"{base_name}.{audio_format}"`. -/
def vaOutputPath (video_path : String) (output_path : Option String)
    (audio_format : String) : String :=
  match output_path with
  | some o => o
  | none => splitextBase (basename video_path) ++ "." ++ audio_format

/-- Output-path resolution of `concatenate_videos` (lines 157-158): an
explicit path, or the fixed name `concatenated_output.mp4`. -/
def concatOutputPath (output_path : Option String) : String :=
  match output_path with
  | some o => o
  | none => "concatenated_output.mp4"

/-- Output-path resolution of `trim_video` (lines 251-253): an explicit
path, or `f"{base_name}_trimmed.mp4"`. -/
def trimOutputPath (video_path : String) (output_path : Option String) : String :=
  match output_path with
  | some o => o
  | none => splitextBase (basename video_path) ++ "_trimmed.mp4"

/-- Output-path resolution of `resize_video` (lines 355-357): an explicit
path, or `f"{base_name}_resized.mp4"`. -/
def resizeOutputPath (video_path : String) (output_path : Option String) : String :=
  match output_path with
  | some o => o
  | none => splitextBase (basename video_path) ++ "_resized.mp4"

/-- Output-path resolution of `extract_audio_segment` (lines 462-465): an
explicit path, or `f"{base_name}_segment{ext}"` where `ext` is the
extension of the input path. -/
def extractOutputPath (audio_path : String) (output_path : Option String) : String :=
  match output_path with
  | some o => o
  | none => splitextBase (basename audio_path) ++ "_segment" ++ splitextExt audio_path

/-- `video_to_audio` of src/main.py (lines 19-107).  Control flow: existence
check, output-path resolution, `VideoFileClip` open, audio-track check
(closing the clip on failure), `write_audiofile`, close, success dict; any
engine exception is caught by the function-wide `try` and mapped to
`CONVERSION_ERROR`, without reaching the `video.close()` that follows the
write on the success path. -/
def video_to_audio (w : World) (video_path : String) (output_path : Option String)
    (audio_format : String) (audio_bitrate : String) : Dict × Trace :=
  match w.fs video_path with
  | none =>
      (failDict ("视频文件不存在: " ++ video_path) "FILE_NOT_FOUND", ⟨0, 0, 0, 0, none⟩)
  | some props =>
      match w.openErr video_path with
      | some e => (failDict e "CONVERSION_ERROR", ⟨0, 0, 0, 0, some e⟩)
      | none =>
          if props.hasAudio = false then
            (failDict "视频文件不包含音频轨道" "NO_AUDIO_TRACK", ⟨1, 1, 0, 0, none⟩)
          else
            match w.writeErr with
            | some e => (failDict e "CONVERSION_ERROR", ⟨1, 0, 1, 0, some e⟩)
            | none =>
                ([("success", Val.b true),
                  ("output_file", Val.s (vaOutputPath video_path output_path audio_format)),
                  ("format", Val.s audio_format),
                  ("duration", Val.q props.duration)],
                 ⟨1, 1, 1, 0, none⟩)

/-- The list comprehension `[VideoFileClip(path) for path in video_paths]`
(line 161): opens the files in order; returns how many were opened before
the first constructor exception, and that exception's message, if any. -/
def openClips (w : World) : List String → ℕ × Option String
  | [] => (0, none)
  | p :: ps =>
      match w.openErr p with
      | some e => (0, some e)
      | none =>
          let r := openClips w ps
          (r.1 + 1, r.2)

/-- Durations of the listed files as the engine reports them (a path that
passed the existence check has metadata; the `none` case is dead). -/
def pathDurations (w : World) (paths : List String) : List ℚ :=
  paths.map fun p =>
    match w.fs p with
    | some pr => pr.duration
    | none => 0

/-- `concatenate_videos` of src/main.py (lines 110-192).  Control flow:
count check (`not video_paths or len(video_paths) < 2`, so `None`, the
empty list and a singleton all fail), per-path existence check returning on
the first missing path, output-path resolution, open of every clip,
`concatenate_videoclips` + `write_videofile`, close of every clip, success
dict; any engine exception maps to `CONCATENATION_ERROR` without closing
the already-opened clips. -/
def concatenate_videos (w : World) (video_paths : Option (List String))
    (output_path : Option String) : Dict × Trace :=
  match video_paths with
  | none =>
      (failDict "至少需要提供两个视频文件进行拼接" "INSUFFICIENT_VIDEOS", ⟨0, 0, 0, 0, none⟩)
  | some paths =>
      if paths.length < 2 then
        (failDict "至少需要提供两个视频文件进行拼接" "INSUFFICIENT_VIDEOS", ⟨0, 0, 0, 0, none⟩)
      else
        match paths.find? (fun p => (w.fs p).isNone) with
        | some missing =>
            (failDict ("视频文件不存在: " ++ missing) "FILE_NOT_FOUND", ⟨0, 0, 0, 0, none⟩)
        | none =>
            match openClips w paths with
            | (k, some e) => (failDict e "CONCATENATION_ERROR", ⟨k, 0, 0, 0, some e⟩)
            | (k, none) =>
                match w.writeErr with
                | some e => (failDict e "CONCATENATION_ERROR", ⟨k, 0, 1, 0, some e⟩)
                | none =>
                    ([("success", Val.b true),
                      ("output_file", Val.s (concatOutputPath output_path)),
                      ("total_duration", Val.q (concatDuration (pathDurations w paths))),
                      ("video_count", Val.i (paths.length : ℤ))],
                     ⟨k, k, 1, 0, none⟩)

/-- `trim_video` of src/main.py (lines 195-296).  Control flow: existence
check, `start_time < 0` check, `end_time <= start_time` check, output-path
resolution, `VideoFileClip` open, `end_time > video.duration` check
(closing the clip on failure), `subclipped` + `write_videofile`, close,
success dict; any engine exception maps to `TRIM_ERROR` without closing
the opened clip. -/
def trim_video (w : World) (video_path : String) (start_time : ℚ) (end_time : ℚ)
    (output_path : Option String) : Dict × Trace :=
  match w.fs video_path with
  | none =>
      (failDict ("视频文件不存在: " ++ video_path) "FILE_NOT_FOUND", ⟨0, 0, 0, 0, none⟩)
  | some props =>
      if start_time < 0 then
        (failDict "开始时间不能为负数" "INVALID_START_TIME", ⟨0, 0, 0, 0, none⟩)
      else if end_time ≤ start_time then
        (failDict "结束时间必须大于开始时间" "INVALID_TIME_RANGE", ⟨0, 0, 0, 0, none⟩)
      else
        match w.openErr video_path with
        | some e => (failDict e "TRIM_ERROR", ⟨0, 0, 0, 0, some e⟩)
        | none =>
            if props.duration < end_time then
              (failDict ("结束时间 (" ++ toString end_time ++ "s) 超出视频长度 ("
                  ++ toString props.duration ++ "s)") "TIME_OUT_OF_RANGE",
               ⟨1, 1, 0, 0, none⟩)
            else
              match w.writeErr with
              | some e => (failDict e "TRIM_ERROR", ⟨1, 0, 1, 0, some e⟩)
              | none =>
                  ([("success", Val.b true),
                    ("output_file", Val.s (trimOutputPath video_path output_path)),
                    ("duration", Val.q (subclipDuration start_time end_time)),
                    ("start_time", Val.q start_time),
                    ("end_time", Val.q end_time)],
                   ⟨1, 1, 1, 0, none⟩)

/-- The size dispatch of `resize_video` (lines 364-375): `scale` first,
then both `width` and `height` verbatim, then width-only, then
height-only.  The all-`none` case is unreachable behind the
`MISSING_SIZE_PARAMETER` check. -/
def resizeDispatch (props : MediaProps) (width height : Option ℤ)
    (scale : Option ℚ) : ℤ × ℤ :=
  match scale, width, height with
  | some sc, _, _ => resizedScale props.w props.h sc
  | none, some nw, some nh => resizedNewSize nw nh
  | none, some nw, none => resizedWidth props.w props.h nw
  | none, none, some nh => resizedHeight props.w props.h nh
  | none, none, none => (props.w, props.h)

/-- `resize_video` of src/main.py (lines 299-403).  Control flow: existence
check, all-parameters-missing check, output-path resolution,
`VideoFileClip` open, size dispatch, `write_videofile`, close, success
dict with `original_size` and `new_size` sub-dicts; any engine exception
maps to `RESIZE_ERROR` without closing the opened clip. -/
def resize_video (w : World) (video_path : String) (width : Option ℤ)
    (height : Option ℤ) (scale : Option ℚ) (output_path : Option String) :
    Dict × Trace :=
  match w.fs video_path with
  | none =>
      (failDict ("视频文件不存在: " ++ video_path) "FILE_NOT_FOUND", ⟨0, 0, 0, 0, none⟩)
  | some props =>
      if width = none ∧ height = none ∧ scale = none then
        (failDict "必须指定 width、height 或 scale 中的至少一个参数"
          "MISSING_SIZE_PARAMETER", ⟨0, 0, 0, 0, none⟩)
      else
        match w.openErr video_path with
        | some e => (failDict e "RESIZE_ERROR", ⟨0, 0, 0, 0, some e⟩)
        | none =>
            match w.writeErr with
            | some e => (failDict e "RESIZE_ERROR", ⟨1, 0, 1, 0, some e⟩)
            | none =>
                ([("success", Val.b true),
                  ("output_file", Val.s (resizeOutputPath video_path output_path)),
                  ("original_size", Val.dict
                    [("width", Val.i props.w), ("height", Val.i props.h)]),
                  ("new_size", Val.dict
                    [("width", Val.i (resizeDispatch props width height scale).1),
                     ("height", Val.i (resizeDispatch props width height scale).2)])],
                 ⟨1, 1, 1, 0, none⟩)

/-- `extract_audio_segment` of src/main.py (lines 406-503).  Same shape as
`trim_video` with `AudioFileClip`, `write_audiofile` and `EXTRACT_ERROR`. -/
def extract_audio_segment (w : World) (audio_path : String) (start_time : ℚ)
    (end_time : ℚ) (output_path : Option String) : Dict × Trace :=
  match w.fs audio_path with
  | none =>
      (failDict ("音频文件不存在: " ++ audio_path) "FILE_NOT_FOUND", ⟨0, 0, 0, 0, none⟩)
  | some props =>
      if start_time < 0 then
        (failDict "开始时间不能为负数" "INVALID_START_TIME", ⟨0, 0, 0, 0, none⟩)
      else if end_time ≤ start_time then
        (failDict "结束时间必须大于开始时间" "INVALID_TIME_RANGE", ⟨0, 0, 0, 0, none⟩)
      else
        match w.openErr audio_path with
        | some e => (failDict e "EXTRACT_ERROR", ⟨0, 0, 0, 0, some e⟩)
        | none =>
            if props.duration < end_time then
              (failDict ("结束时间 (" ++ toString end_time ++ "s) 超出音频长度 ("
                  ++ toString props.duration ++ "s)") "TIME_OUT_OF_RANGE",
               ⟨1, 1, 0, 0, none⟩)
            else
              match w.writeErr with
              | some e => (failDict e "EXTRACT_ERROR", ⟨1, 0, 1, 0, some e⟩)
              | none =>
                  ([("success", Val.b true),
                    ("output_file", Val.s (extractOutputPath audio_path output_path)),
                    ("duration", Val.q (subclipDuration start_time end_time)),
                    ("start_time", Val.q start_time),
                    ("end_time", Val.q end_time)],
                   ⟨1, 1, 1, 0, none⟩)

/-- Model of Python `round(x, 2)` used for `file_size_mb` (ties modelled as
round-half-away, which differs from Python's round-half-even only at exact
midpoints). -/
def round2 (q : ℚ) : ℚ := (round (q * 100) : ℚ) / 100

/-- The `info` dict of `get_video_info` (lines 541-550). -/
def infoDict (props : MediaProps) : Val :=
  Val.dict
    [("duration", Val.q props.duration),
     ("fps", Val.q props.fps),
     ("size", Val.list [Val.i props.w, Val.i props.h]),
     ("width", Val.i props.w),
     ("height", Val.i props.h),
     ("has_audio", Val.b props.hasAudio),
     ("file_size_bytes", Val.i (props.sizeBytes : ℤ)),
     ("file_size_mb", Val.q (round2 ((props.sizeBytes : ℚ) / (1024 * 1024))))]

/-- `get_video_info` of src/main.py (lines 506-565).  Control flow:
existence check, `VideoFileClip` open, `os.path.getsize`, info dict,
close, success dict; any engine exception maps to `INFO_ERROR`. -/
def get_video_info (w : World) (video_path : String) : Dict × Trace :=
  match w.fs video_path with
  | none =>
      (failDict ("视频文件不存在: " ++ video_path) "FILE_NOT_FOUND", ⟨0, 0, 0, 0, none⟩)
  | some props =>
      match w.openErr video_path with
      | some e => (failDict e "INFO_ERROR", ⟨0, 0, 0, 0, some e⟩)
      | none =>
          ([("success", Val.b true), ("info", infoDict props)], ⟨1, 1, 0, 0, none⟩)

/-- Outcome of a Python call: either the body runs, or positional-argument
binding fails with a TypeError before the body (and its `try` block) is
entered. -/
inductive PyCall (α : Type) where
  | ret : α → PyCall α
  | typeError : PyCall α

/-- The call interface of `trim_video` as declared in the source (line
195-200): `video_path`, `start_time` and `end_time` are required
positional parameters with no default, `output_path` defaults to `None`.
A call that omits `start_time` or `end_time` raises a TypeError at binding
time, outside the function's `try` block. -/
def trim_video_call (w : World) (video_path : String) (start_time : Option ℚ)
    (end_time : Option ℚ) (output_path : Option String) : PyCall (Dict × Trace) :=
  match start_time, end_time with
  | some s, some e => PyCall.ret (trim_video w video_path s e output_path)
  | _, _ => PyCall.typeError

/-- Whether a Python call returned a dict whose `success` entry is True. -/
def callSucceeded : PyCall (Dict × Trace) → Bool
  | PyCall.ret (d, _) =>
      match lookupKey d "success" with
      | some (Val.b true) => true
      | _ => false
  | PyCall.typeError => false

/-- A concrete environment: a 10-second 1280×720 video with audio, a
5-second clip, a 7-second video without an audio track, and a healthy
engine. -/
def demoWorld : World :=
  ⟨fun p =>
     if p = "videos/movie.mp4" then some ⟨10, 30, 1280, 720, true, 2048⟩
     else if p = "videos/clip2.mp4" then some ⟨5, 30, 640, 360, true, 1024⟩
     else if p = "videos/silent.mp4" then some ⟨7, 24, 640, 480, false, 512⟩
     else none,
   fun _ => none, none⟩

/-- The demo environment with an engine whose write call raises. -/
def demoWorldWriteFail : World :=
  ⟨demoWorld.fs, fun _ => none, some "disk full"⟩

/-- The demo environment with an engine whose clip constructor raises. -/
def demoWorldOpenFail : World :=
  ⟨demoWorld.fs, fun _ => some "open boom", none⟩

/-- The failure result shape: `success` is False, `error` and `error_code`
are present as strings, and none of the operation's success fields are
present. -/
def failureShape (fields : List String) (d : Dict) : Prop :=
  lookupKey d "success" = some (Val.b false) ∧
  (∃ m, lookupKey d "error" = some (Val.s m)) ∧
  (∃ c, lookupKey d "error_code" = some (Val.s c)) ∧
  ∀ k ∈ fields, lookupKey d k = none

/-- The success result shape: `success` is True, every operation-specific
field is present, and neither `error` nor `error_code` is. -/
def successShape (fields : List String) (d : Dict) : Prop :=
  lookupKey d "success" = some (Val.b true) ∧
  (∀ k ∈ fields, (lookupKey d k).isSome = true) ∧
  lookupKey d "error" = none ∧ lookupKey d "error_code" = none

/-- Success fields of `video_to_audio`. -/
def vaFields : List String := ["output_file", "format", "duration"]

/-- Success fields of `concatenate_videos`. -/
def ccFields : List String := ["output_file", "total_duration", "video_count"]

/-- Success fields of `trim_video` and `extract_audio_segment`. -/
def trFields : List String := ["output_file", "duration", "start_time", "end_time"]

/-- Success fields of `resize_video`. -/
def rsFields : List String := ["output_file", "original_size", "new_size"]

/-- Success fields of `get_video_info`. -/
def giFields : List String := ["info"]

/-- Every failure dict of the module has the failure shape, for any list of
success fields disjoint from the three failure keys. -/
theorem failureShape_failDict (msg code : String) (fields : List String)
    (h : ∀ k ∈ fields, k ≠ "success" ∧ k ≠ "error" ∧ k ≠ "error_code") :
    failureShape fields (failDict msg code) := by
  refine ⟨rfl, ⟨msg, rfl⟩, ⟨code, rfl⟩, ?_⟩
  intro k hk
  obtain ⟨h1, h2, h3⟩ := h k hk
  have e1 : (k == "success") = false := beq_eq_false_iff_ne.mpr h1
  have e2 : (k == "error") = false := beq_eq_false_iff_ne.mpr h2
  have e3 : (k == "error_code") = false := beq_eq_false_iff_ne.mpr h3
  simp [lookupKey, failDict, List.lookup, e1, e2, e3]

/-- Result-shape case analysis for `video_to_audio`. -/
theorem video_to_audio_shapes (w : World) (p : String) (o : Option String)
    (fmt br : String) :
    failureShape vaFields (video_to_audio w p o fmt br).1 ∨
    successShape vaFields (video_to_audio w p o fmt br).1 := by
  unfold video_to_audio
  split
  · exact Or.inl (failureShape_failDict _ _ _ (by decide))
  · split
    · exact Or.inl (failureShape_failDict _ _ _ (by decide))
    · split
      · exact Or.inl (failureShape_failDict _ _ _ (by decide))
      · split
        · exact Or.inl (failureShape_failDict _ _ _ (by decide))
        · refine Or.inr ⟨rfl, ?_, rfl, rfl⟩
          intro k hk
          simp only [vaFields] at hk
          fin_cases hk <;> rfl

/-- Result-shape case analysis for `concatenate_videos`. -/
theorem concatenate_videos_shapes (w : World) (vp : Option (List String))
    (o : Option String) :
    failureShape ccFields (concatenate_videos w vp o).1 ∨
    successShape ccFields (concatenate_videos w vp o).1 := by
  unfold concatenate_videos
  split
  · exact Or.inl (failureShape_failDict _ _ _ (by decide))
  · split
    · exact Or.inl (failureShape_failDict _ _ _ (by decide))
    · split
      · exact Or.inl (failureShape_failDict _ _ _ (by decide))
      · split
        · exact Or.inl (failureShape_failDict _ _ _ (by decide))
        · split
          · exact Or.inl (failureShape_failDict _ _ _ (by decide))
          · refine Or.inr ⟨rfl, ?_, rfl, rfl⟩
            intro k hk
            simp only [ccFields] at hk
            fin_cases hk <;> rfl

/-- Result-shape case analysis for `trim_video`. -/
theorem trim_video_shapes (w : World) (p : String) (s e : ℚ) (o : Option String) :
    failureShape trFields (trim_video w p s e o).1 ∨
    successShape trFields (trim_video w p s e o).1 := by
  unfold trim_video
  split
  · exact Or.inl (failureShape_failDict _ _ _ (by decide))
  · split
    · exact Or.inl (failureShape_failDict _ _ _ (by decide))
    · split
      · exact Or.inl (failureShape_failDict _ _ _ (by decide))
      · split
        · exact Or.inl (failureShape_failDict _ _ _ (by decide))
        · split
          · exact Or.inl (failureShape_failDict _ _ _ (by decide))
          · split
            · exact Or.inl (failureShape_failDict _ _ _ (by decide))
            · refine Or.inr ⟨rfl, ?_, rfl, rfl⟩
              intro k hk
              simp only [trFields] at hk
              fin_cases hk <;> rfl

/-- Result-shape case analysis for `resize_video`. -/
theorem resize_video_shapes (w : World) (p : String) (wd ht : Option ℤ)
    (sc : Option ℚ) (o : Option String) :
    failureShape rsFields (resize_video w p wd ht sc o).1 ∨
    successShape rsFields (resize_video w p wd ht sc o).1 := by
  unfold resize_video
  split
  · exact Or.inl (failureShape_failDict _ _ _ (by decide))
  · split
    · exact Or.inl (failureShape_failDict _ _ _ (by decide))
    · split
      · exact Or.inl (failureShape_failDict _ _ _ (by decide))
      · split
        · exact Or.inl (failureShape_failDict _ _ _ (by decide))
        · refine Or.inr ⟨rfl, ?_, rfl, rfl⟩
          intro k hk
          simp only [rsFields] at hk
          fin_cases hk <;> rfl

/-- Result-shape case analysis for `extract_audio_segment`. -/
theorem extract_audio_segment_shapes (w : World) (p : String) (s e : ℚ)
    (o : Option String) :
    failureShape trFields (extract_audio_segment w p s e o).1 ∨
    successShape trFields (extract_audio_segment w p s e o).1 := by
  unfold extract_audio_segment
  split
  · exact Or.inl (failureShape_failDict _ _ _ (by decide))
  · split
    · exact Or.inl (failureShape_failDict _ _ _ (by decide))
    · split
      · exact Or.inl (failureShape_failDict _ _ _ (by decide))
      · split
        · exact Or.inl (failureShape_failDict _ _ _ (by decide))
        · split
          · exact Or.inl (failureShape_failDict _ _ _ (by decide))
          · split
            · exact Or.inl (failureShape_failDict _ _ _ (by decide))
            · refine Or.inr ⟨rfl, ?_, rfl, rfl⟩
              intro k hk
              simp only [trFields] at hk
              fin_cases hk <;> rfl

/-- Result-shape case analysis for `get_video_info`. -/
theorem get_video_info_shapes (w : World) (p : String) :
    failureShape giFields (get_video_info w p).1 ∨
    successShape giFields (get_video_info w p).1 := by
  unfold get_video_info
  split
  · exact Or.inl (failureShape_failDict _ _ _ (by decide))
  · split
    · exact Or.inl (failureShape_failDict _ _ _ (by decide))
    · refine Or.inr ⟨rfl, ?_, rfl, rfl⟩
      intro k hk
      simp only [giFields] at hk
      fin_cases hk <;> rfl

/-- C9: for every operation and every input, the returned dict is exactly
one of two shapes: a failure result with `success=False` together with
string-valued `error` and `error_code` and none of the operation-specific
success fields, or a success result with `success=True` together with the
operation-specific fields and neither `error` nor `error_code`. -/
theorem c9_result_dict_two_shapes (w : World) (p : String) (o : Option String)
    (fmt br : String) (vp : Option (List String)) (s e : ℚ)
    (wd ht : Option ℤ) (sc : Option ℚ) :
    (failureShape vaFields (video_to_audio w p o fmt br).1 ∨
      successShape vaFields (video_to_audio w p o fmt br).1) ∧
    (failureShape ccFields (concatenate_videos w vp o).1 ∨
      successShape ccFields (concatenate_videos w vp o).1) ∧
    (failureShape trFields (trim_video w p s e o).1 ∨
      successShape trFields (trim_video w p s e o).1) ∧
    (failureShape rsFields (resize_video w p wd ht sc o).1 ∨
      successShape rsFields (resize_video w p wd ht sc o).1) ∧
    (failureShape trFields (extract_audio_segment w p s e o).1 ∨
      successShape trFields (extract_audio_segment w p s e o).1) ∧
    (failureShape giFields (get_video_info w p).1 ∨
      successShape giFields (get_video_info w p).1) :=
  ⟨video_to_audio_shapes w p o fmt br, concatenate_videos_shapes w vp o,
   trim_video_shapes w p s e o, resize_video_shapes w p wd ht sc o,
   extract_audio_segment_shapes w p s e o, get_video_info_shapes w p⟩

/-- C4: for every operation whose required input file does not exist, the
result is `success=False` with error code `FILE_NOT_FOUND` and no media
handle is opened (the trace of the call is empty; for `concatenate_videos`
the list must have at least 2 entries, since the count check precedes the
existence check, and the error code and the open count are stated). -/
theorem c4_missing_input_file_not_found (w : World) (p : String)
    (o : Option String) (fmt br : String) (s e : ℚ) (wd ht : Option ℤ)
    (sc : Option ℚ) (paths : List String)
    (hp : w.fs p = none) (hlen : 2 ≤ paths.length) (hmem : p ∈ paths) :
    video_to_audio w p o fmt br =
      (failDict ("视频文件不存在: " ++ p) "FILE_NOT_FOUND", ⟨0, 0, 0, 0, none⟩) ∧
    trim_video w p s e o =
      (failDict ("视频文件不存在: " ++ p) "FILE_NOT_FOUND", ⟨0, 0, 0, 0, none⟩) ∧
    resize_video w p wd ht sc o =
      (failDict ("视频文件不存在: " ++ p) "FILE_NOT_FOUND", ⟨0, 0, 0, 0, none⟩) ∧
    extract_audio_segment w p s e o =
      (failDict ("音频文件不存在: " ++ p) "FILE_NOT_FOUND", ⟨0, 0, 0, 0, none⟩) ∧
    get_video_info w p =
      (failDict ("视频文件不存在: " ++ p) "FILE_NOT_FOUND", ⟨0, 0, 0, 0, none⟩) ∧
    lookupKey (concatenate_videos w (some paths) o).1 "error_code" =
      some (Val.s "FILE_NOT_FOUND") ∧
    (concatenate_videos w (some paths) o).2.opens = 0 := by
  refine ⟨by simp only [video_to_audio, hp], by simp only [trim_video, hp],
    by simp only [resize_video, hp], by simp only [extract_audio_segment, hp],
    by simp only [get_video_info, hp], ?_, ?_⟩ <;>
  · rcases hfind : paths.find? (fun q => (w.fs q).isNone) with _ | q
    · rw [List.find?_eq_none] at hfind
      exact absurd (by simp [hp]) (hfind p hmem)
    · simp only [concatenate_videos, hfind, if_neg (not_lt.mpr hlen)]
      try rfl

/-- Witness for C4 at a concrete missing file. -/
theorem c4_missing_input_file_not_found_witness :
    demoWorld.fs "absent.mp4" = none ∧
    2 ≤ (["videos/movie.mp4", "absent.mp4"] : List String).length ∧
    "absent.mp4" ∈ ["videos/movie.mp4", "absent.mp4"] ∧
    get_video_info demoWorld "absent.mp4" =
      (failDict ("视频文件不存在: " ++ "absent.mp4") "FILE_NOT_FOUND", ⟨0, 0, 0, 0, none⟩) ∧
    lookupKey (concatenate_videos demoWorld
        (some ["videos/movie.mp4", "absent.mp4"]) none).1 "error_code" =
      some (Val.s "FILE_NOT_FOUND") :=
  ⟨rfl, by decide, by decide,
   (c4_missing_input_file_not_found demoWorld "absent.mp4" none "mp3" "192k"
      0 1 none none none ["videos/movie.mp4", "absent.mp4"] rfl (by decide)
      (by decide)).2.2.2.2.1,
   (c4_missing_input_file_not_found demoWorld "absent.mp4" none "mp3" "192k"
      0 1 none none none ["videos/movie.mp4", "absent.mp4"] rfl (by decide)
      (by decide)).2.2.2.2.2.1⟩

/-- C5: `concatenate_videos` with `None`, the empty list, or fewer than two
paths fails with `INSUFFICIENT_VIDEOS`, whatever the filesystem holds and
without opening anything. -/
theorem c5_insufficient_videos (w : World) (vp : Option (List String))
    (o : Option String)
    (h : vp = none ∨ ∃ l, vp = some l ∧ l.length < 2) :
    concatenate_videos w vp o =
      (failDict "至少需要提供两个视频文件进行拼接" "INSUFFICIENT_VIDEOS",
       ⟨0, 0, 0, 0, none⟩) := by
  rcases h with rfl | ⟨l, rfl, hl⟩
  · rfl
  · simp only [concatenate_videos, if_pos hl]

/-- Witness for C5: a singleton list whose only file exists. -/
theorem c5_insufficient_videos_witness :
    ((some ["videos/movie.mp4"] : Option (List String)) = none ∨
      ∃ l, (some ["videos/movie.mp4"] : Option (List String)) = some l ∧
        l.length < 2) ∧
    (demoWorld.fs "videos/movie.mp4").isSome = true ∧
    concatenate_videos demoWorld (some ["videos/movie.mp4"]) none =
      (failDict "至少需要提供两个视频文件进行拼接" "INSUFFICIENT_VIDEOS",
       ⟨0, 0, 0, 0, none⟩) :=
  ⟨Or.inr ⟨["videos/movie.mp4"], rfl, by decide⟩, rfl,
   c5_insufficient_videos demoWorld (some ["videos/movie.mp4"]) none
     (Or.inr ⟨["videos/movie.mp4"], rfl, by decide⟩)⟩

/-- C10: in `trim_video` and `extract_audio_segment` the input-existence
check precedes every time-parameter check: a missing input always yields
`FILE_NOT_FOUND` even with invalid times, and `INVALID_START_TIME` or
`INVALID_TIME_RANGE` can only be returned for an existing input. -/
theorem c10_existence_check_precedes_time_checks (w : World) (p : String)
    (s e : ℚ) (o : Option String) :
    (w.fs p = none →
      lookupKey (trim_video w p s e o).1 "error_code" =
        some (Val.s "FILE_NOT_FOUND") ∧
      lookupKey (extract_audio_segment w p s e o).1 "error_code" =
        some (Val.s "FILE_NOT_FOUND")) ∧
    (∀ code, (code = "INVALID_START_TIME" ∨ code = "INVALID_TIME_RANGE") →
      (lookupKey (trim_video w p s e o).1 "error_code" = some (Val.s code) →
        (w.fs p).isSome = true) ∧
      (lookupKey (extract_audio_segment w p s e o).1 "error_code" =
          some (Val.s code) →
        (w.fs p).isSome = true)) := by
  constructor
  · intro hp
    exact ⟨by simp only [trim_video, hp]; rfl,
           by simp only [extract_audio_segment, hp]; rfl⟩
  · intro code hcode
    rcases hfs : w.fs p with _ | props
    · constructor
      · intro h
        simp only [trim_video, hfs] at h
        have h2 : some (Val.s "FILE_NOT_FOUND") = some (Val.s code) := h
        injection h2 with h3
        injection h3 with h4
        rcases hcode with rfl | rfl <;> exact absurd h4 (by decide)
      · intro h
        simp only [extract_audio_segment, hfs] at h
        have h2 : some (Val.s "FILE_NOT_FOUND") = some (Val.s code) := h
        injection h2 with h3
        injection h3 with h4
        rcases hcode with rfl | rfl <;> exact absurd h4 (by decide)
    · exact ⟨fun _ => rfl, fun _ => rfl⟩

/-- Witness for C10: a missing file with a negative start and a reversed
range still reports `FILE_NOT_FOUND`. -/
theorem c10_existence_check_precedes_time_checks_witness :
    demoWorld.fs "absent.mp4" = none ∧
    lookupKey (trim_video demoWorld "absent.mp4" (-5) (-10) none).1 "error_code" =
      some (Val.s "FILE_NOT_FOUND") ∧
    lookupKey (extract_audio_segment demoWorld "absent.mp4" (-5) (-10) none).1
        "error_code" = some (Val.s "FILE_NOT_FOUND") :=
  ⟨rfl,
   (c10_existence_check_precedes_time_checks demoWorld "absent.mp4"
      (-5) (-10) none).1 rfl⟩

/-- C2: for an open video, `resize_video` publishes as `new_size` exactly
the dimensions of the size dispatch, and the dispatch follows the claimed
rule and precedence: `scale` first (both dimensions rounded), then
`width`+`height` verbatim, then width-only with the height derived by
aspect ratio, then height-only with the width derived by aspect ratio. -/
theorem c2_resize_geometry_rule (w : World) (p : String) (props : MediaProps)
    (wd ht : Option ℤ) (sc : Option ℚ) (o : Option String)
    (hp : w.fs p = some props) (ho : w.openErr p = none) (hw : w.writeErr = none)
    (hparam : ¬(wd = none ∧ ht = none ∧ sc = none)) :
    lookupKey (resize_video w p wd ht sc o).1 "new_size" =
      some (Val.dict [("width", Val.i (resizeDispatch props wd ht sc).1),
                      ("height", Val.i (resizeDispatch props wd ht sc).2)]) ∧
    (∀ s, sc = some s →
      resizeDispatch props wd ht sc =
        (round ((props.w : ℚ) * s), round ((props.h : ℚ) * s))) ∧
    (∀ a b, sc = none → wd = some a → ht = some b →
      resizeDispatch props wd ht sc = (a, b)) ∧
    (∀ a, sc = none → wd = some a → ht = none →
      resizeDispatch props wd ht sc = (a, round ((props.h : ℚ) * a / props.w))) ∧
    (∀ b, sc = none → wd = none → ht = some b →
      resizeDispatch props wd ht sc = (round ((props.w : ℚ) * b / props.h), b)) := by
  refine ⟨?_, ?_, ?_, ?_, ?_⟩
  · simp only [resize_video, hp, ho, hw, if_neg hparam]
    rfl
  · rintro s rfl
    rfl
  · rintro a b rfl rfl rfl
    rfl
  · rintro a rfl rfl rfl
    rfl
  · rintro b rfl rfl rfl
    rfl

/-- Witness for C2: original (1280,720); width=640 alone gives (640,360),
and scale=1/2 gives (640,360). -/
theorem c2_resize_geometry_rule_witness :
    demoWorld.fs "videos/movie.mp4" = some ⟨10, 30, 1280, 720, true, 2048⟩ ∧
    demoWorld.openErr "videos/movie.mp4" = none ∧
    demoWorld.writeErr = none ∧
    lookupKey (resize_video demoWorld "videos/movie.mp4" (some 640) none none
        none).1 "new_size" =
      some (Val.dict [("width", Val.i 640), ("height", Val.i 360)]) ∧
    lookupKey (resize_video demoWorld "videos/movie.mp4" none none
        (some (1/2)) none).1 "new_size" =
      some (Val.dict [("width", Val.i 640), ("height", Val.i 360)]) :=
  by
  refine ⟨rfl, rfl, rfl, ?_, ?_⟩
  · have h1 := (c2_resize_geometry_rule demoWorld "videos/movie.mp4"
      ⟨10, 30, 1280, 720, true, 2048⟩ (some 640) none none none rfl rfl rfl
      (by simp)).1
    have e1 : resizeDispatch ⟨10, 30, 1280, 720, true, 2048⟩ (some 640) none none
        = (640, 360) := by
      norm_num [resizeDispatch, resizedWidth, round_eq, Prod.ext_iff]
    rw [e1] at h1
    exact h1
  · have h2 := (c2_resize_geometry_rule demoWorld "videos/movie.mp4"
      ⟨10, 30, 1280, 720, true, 2048⟩ none none (some (1/2)) none rfl rfl rfl
      (by simp)).1
    have e2 : resizeDispatch ⟨10, 30, 1280, 720, true, 2048⟩ none none (some (1/2))
        = (640, 360) := by
      norm_num [resizeDispatch, resizedScale, round_eq, Prod.ext_iff]
    rw [e2] at h2
    exact h2

/-- C3 as stated is false: for the existing 10-second demo video,
`trim_video` with start=-1 and end=-2 has end ≤ start, yet the error code
is `INVALID_START_TIME`, not `INVALID_TIME_RANGE` — the negative-start
check fires first. -/
theorem c3_counterexample_start_check_precedes_range_check :
    lookupKey (trim_video demoWorld "videos/movie.mp4" (-1) (-2) none).1
        "error_code" = some (Val.s "INVALID_START_TIME") ∧
    lookupKey (trim_video demoWorld "videos/movie.mp4" (-1) (-2) none).1
        "error_code" ≠ some (Val.s "INVALID_TIME_RANGE") := by
  have h1 : lookupKey (trim_video demoWorld "videos/movie.mp4" (-1) (-2) none).1
      "error_code" = some (Val.s "INVALID_START_TIME") := rfl
  refine ⟨h1, ?_⟩
  rw [h1]
  simp

/-- C3 amended: for an existing input the checks fire in order — a negative
start yields `INVALID_START_TIME`; otherwise end ≤ start yields
`INVALID_TIME_RANGE`; otherwise, after opening the clip, end beyond the
source duration yields `TIME_OUT_OF_RANGE` (handle closed again).  Each
such call returns success=False and never attempts the transform or the
write. -/
theorem c3_trim_time_validation (w : World) (p : String) (props : MediaProps)
    (s e : ℚ) (o : Option String) (hp : w.fs p = some props) :
    (s < 0 →
      trim_video w p s e o =
        (failDict "开始时间不能为负数" "INVALID_START_TIME", ⟨0, 0, 0, 0, none⟩)) ∧
    (0 ≤ s → e ≤ s →
      trim_video w p s e o =
        (failDict "结束时间必须大于开始时间" "INVALID_TIME_RANGE", ⟨0, 0, 0, 0, none⟩)) ∧
    (0 ≤ s → s < e → w.openErr p = none → props.duration < e →
      trim_video w p s e o =
        (failDict ("结束时间 (" ++ toString e ++ "s) 超出视频长度 ("
            ++ toString props.duration ++ "s)") "TIME_OUT_OF_RANGE",
         ⟨1, 1, 0, 0, none⟩)) := by
  refine ⟨?_, ?_, ?_⟩
  · intro hs
    simp only [trim_video, hp, if_pos hs]
  · intro hs0 hes
    simp only [trim_video, hp, if_neg (not_lt.mpr hs0), if_pos hes]
  · intro hs0 hse ho hdur
    simp only [trim_video, hp, if_neg (not_lt.mpr hs0),
      if_neg (not_le.mpr hse), ho, if_pos hdur]

/-- Witness for the amended C3: the three validation branches at concrete
times on the 10-second demo video. -/
theorem c3_trim_time_validation_witness :
    demoWorld.fs "videos/movie.mp4" = some ⟨10, 30, 1280, 720, true, 2048⟩ ∧
    trim_video demoWorld "videos/movie.mp4" (-1) 5 none =
      (failDict "开始时间不能为负数" "INVALID_START_TIME", ⟨0, 0, 0, 0, none⟩) ∧
    trim_video demoWorld "videos/movie.mp4" 5 3 none =
      (failDict "结束时间必须大于开始时间" "INVALID_TIME_RANGE", ⟨0, 0, 0, 0, none⟩) ∧
    trim_video demoWorld "videos/movie.mp4" 2 12 none =
      (failDict "结束时间 (12s) 超出视频长度 (10s)" "TIME_OUT_OF_RANGE",
       ⟨1, 1, 0, 0, none⟩) :=
  ⟨rfl,
   (c3_trim_time_validation demoWorld "videos/movie.mp4"
      ⟨10, 30, 1280, 720, true, 2048⟩ (-1) 5 none rfl).1 (by norm_num),
   (c3_trim_time_validation demoWorld "videos/movie.mp4"
      ⟨10, 30, 1280, 720, true, 2048⟩ 5 3 none rfl).2.1 (by norm_num) (by norm_num),
   (c3_trim_time_validation demoWorld "videos/movie.mp4"
      ⟨10, 30, 1280, 720, true, 2048⟩ 2 12 none rfl).2.2 (by norm_num) (by norm_num)
     rfl (by norm_num)⟩

/-- The operation-boundary contract: the result dict always carries the
success flag, the write is attempted at most once (no retry), and an
engine exception is converted into the failure dict carrying the
per-operation generic code and the exception's message. -/
def opBoundary (code : String) (r : Dict × Trace) : Prop :=
  (∃ v, lookupKey r.1 "success" = some v) ∧
  r.2.writes ≤ 1 ∧
  ∀ m, r.2.raised = some m → r.1 = failDict m code

/-- Boundary contract of `video_to_audio`. -/
theorem video_to_audio_boundary (w : World) (p : String) (o : Option String)
    (fmt br : String) :
    opBoundary "CONVERSION_ERROR" (video_to_audio w p o fmt br) := by
  unfold opBoundary video_to_audio
  split
  · exact ⟨⟨_, rfl⟩, Nat.le_of_sub_eq_zero rfl, fun m hm => nomatch hm⟩
  · split
    · exact ⟨⟨_, rfl⟩, Nat.le_of_sub_eq_zero rfl, fun m hm => by cases hm; rfl⟩
    · split
      · exact ⟨⟨_, rfl⟩, Nat.le_of_sub_eq_zero rfl, fun m hm => nomatch hm⟩
      · split
        · exact ⟨⟨_, rfl⟩, Nat.le_of_sub_eq_zero rfl, fun m hm => by cases hm; rfl⟩
        · exact ⟨⟨_, rfl⟩, Nat.le_of_sub_eq_zero rfl, fun m hm => nomatch hm⟩

/-- Boundary contract of `concatenate_videos`. -/
theorem concatenate_videos_boundary (w : World) (vp : Option (List String))
    (o : Option String) :
    opBoundary "CONCATENATION_ERROR" (concatenate_videos w vp o) := by
  unfold opBoundary concatenate_videos
  split
  · exact ⟨⟨_, rfl⟩, Nat.le_of_sub_eq_zero rfl, fun m hm => nomatch hm⟩
  · split
    · exact ⟨⟨_, rfl⟩, Nat.le_of_sub_eq_zero rfl, fun m hm => nomatch hm⟩
    · split
      · exact ⟨⟨_, rfl⟩, Nat.le_of_sub_eq_zero rfl, fun m hm => nomatch hm⟩
      · split
        · exact ⟨⟨_, rfl⟩, Nat.le_of_sub_eq_zero rfl, fun m hm => by cases hm; rfl⟩
        · split
          · exact ⟨⟨_, rfl⟩, Nat.le_of_sub_eq_zero rfl, fun m hm => by cases hm; rfl⟩
          · exact ⟨⟨_, rfl⟩, Nat.le_of_sub_eq_zero rfl, fun m hm => nomatch hm⟩

/-- Boundary contract of `trim_video`. -/
theorem trim_video_boundary (w : World) (p : String) (s e : ℚ)
    (o : Option String) :
    opBoundary "TRIM_ERROR" (trim_video w p s e o) := by
  unfold opBoundary trim_video
  split
  · exact ⟨⟨_, rfl⟩, Nat.le_of_sub_eq_zero rfl, fun m hm => nomatch hm⟩
  · split
    · exact ⟨⟨_, rfl⟩, Nat.le_of_sub_eq_zero rfl, fun m hm => nomatch hm⟩
    · split
      · exact ⟨⟨_, rfl⟩, Nat.le_of_sub_eq_zero rfl, fun m hm => nomatch hm⟩
      · split
        · exact ⟨⟨_, rfl⟩, Nat.le_of_sub_eq_zero rfl, fun m hm => by cases hm; rfl⟩
        · split
          · exact ⟨⟨_, rfl⟩, Nat.le_of_sub_eq_zero rfl, fun m hm => nomatch hm⟩
          · split
            · exact ⟨⟨_, rfl⟩, Nat.le_of_sub_eq_zero rfl, fun m hm => by cases hm; rfl⟩
            · exact ⟨⟨_, rfl⟩, Nat.le_of_sub_eq_zero rfl, fun m hm => nomatch hm⟩

/-- Boundary contract of `resize_video`. -/
theorem resize_video_boundary (w : World) (p : String) (wd ht : Option ℤ)
    (sc : Option ℚ) (o : Option String) :
    opBoundary "RESIZE_ERROR" (resize_video w p wd ht sc o) := by
  unfold opBoundary resize_video
  split
  · exact ⟨⟨_, rfl⟩, Nat.le_of_sub_eq_zero rfl, fun m hm => nomatch hm⟩
  · split
    · exact ⟨⟨_, rfl⟩, Nat.le_of_sub_eq_zero rfl, fun m hm => nomatch hm⟩
    · split
      · exact ⟨⟨_, rfl⟩, Nat.le_of_sub_eq_zero rfl, fun m hm => by cases hm; rfl⟩
      · split
        · exact ⟨⟨_, rfl⟩, Nat.le_of_sub_eq_zero rfl, fun m hm => by cases hm; rfl⟩
        · exact ⟨⟨_, rfl⟩, Nat.le_of_sub_eq_zero rfl, fun m hm => nomatch hm⟩

/-- Boundary contract of `extract_audio_segment`. -/
theorem extract_audio_segment_boundary (w : World) (p : String) (s e : ℚ)
    (o : Option String) :
    opBoundary "EXTRACT_ERROR" (extract_audio_segment w p s e o) := by
  unfold opBoundary extract_audio_segment
  split
  · exact ⟨⟨_, rfl⟩, Nat.le_of_sub_eq_zero rfl, fun m hm => nomatch hm⟩
  · split
    · exact ⟨⟨_, rfl⟩, Nat.le_of_sub_eq_zero rfl, fun m hm => nomatch hm⟩
    · split
      · exact ⟨⟨_, rfl⟩, Nat.le_of_sub_eq_zero rfl, fun m hm => nomatch hm⟩
      · split
        · exact ⟨⟨_, rfl⟩, Nat.le_of_sub_eq_zero rfl, fun m hm => by cases hm; rfl⟩
        · split
          · exact ⟨⟨_, rfl⟩, Nat.le_of_sub_eq_zero rfl, fun m hm => nomatch hm⟩
          · split
            · exact ⟨⟨_, rfl⟩, Nat.le_of_sub_eq_zero rfl, fun m hm => by cases hm; rfl⟩
            · exact ⟨⟨_, rfl⟩, Nat.le_of_sub_eq_zero rfl, fun m hm => nomatch hm⟩

/-- Boundary contract of `get_video_info`. -/
theorem get_video_info_boundary (w : World) (p : String) :
    opBoundary "INFO_ERROR" (get_video_info w p) := by
  unfold opBoundary get_video_info
  split
  · exact ⟨⟨_, rfl⟩, Nat.le_of_sub_eq_zero rfl, fun m hm => nomatch hm⟩
  · split
    · exact ⟨⟨_, rfl⟩, Nat.le_of_sub_eq_zero rfl, fun m hm => by cases hm; rfl⟩
    · exact ⟨⟨_, rfl⟩, Nat.le_of_sub_eq_zero rfl, fun m hm => nomatch hm⟩

/-- C6: for every operation and input, the caller always receives a result
dict carrying the success flag, writes are attempted at most once (no
retry), and an engine exception is caught at the operation boundary and
converted to the failure dict with the per-operation generic error code
(`CONVERSION_ERROR`, `CONCATENATION_ERROR`, `TRIM_ERROR`, `RESIZE_ERROR`,
`EXTRACT_ERROR`, `INFO_ERROR`) carrying the underlying message. -/
theorem c6_boundary_conversion (w : World) (p : String) (o : Option String)
    (fmt br : String) (vp : Option (List String)) (s e : ℚ)
    (wd ht : Option ℤ) (sc : Option ℚ) :
    opBoundary "CONVERSION_ERROR" (video_to_audio w p o fmt br) ∧
    opBoundary "CONCATENATION_ERROR" (concatenate_videos w vp o) ∧
    opBoundary "TRIM_ERROR" (trim_video w p s e o) ∧
    opBoundary "RESIZE_ERROR" (resize_video w p wd ht sc o) ∧
    opBoundary "EXTRACT_ERROR" (extract_audio_segment w p s e o) ∧
    opBoundary "INFO_ERROR" (get_video_info w p) :=
  ⟨video_to_audio_boundary w p o fmt br, concatenate_videos_boundary w vp o,
   trim_video_boundary w p s e o, resize_video_boundary w p wd ht sc o,
   extract_audio_segment_boundary w p s e o, get_video_info_boundary w p⟩

/-- Witness for C6: with an engine whose open raises "open boom", the
conversion result is the failure dict with the generic code and that
message. -/
theorem c6_boundary_conversion_witness :
    (video_to_audio demoWorldOpenFail "videos/movie.mp4" none "mp3" "192k").2.raised =
      some "open boom" ∧
    (video_to_audio demoWorldOpenFail "videos/movie.mp4" none "mp3" "192k").1 =
      failDict "open boom" "CONVERSION_ERROR" :=
  ⟨rfl,
   (c6_boundary_conversion demoWorldOpenFail "videos/movie.mp4" none "mp3" "192k"
      none 0 1 none none none).1.2.2 "open boom" rfl⟩

/-- C1 fails on the code: the `close()` calls sit inline on the success
path (and on the two validation-failure paths), not in a `finally`, so
when the engine raises during the write the function-wide `except` returns
the failure dict with the already-opened clip never closed.  With
"disk full" raised at write time, `video_to_audio` and `trim_video` each
return after opening one handle and closing none. -/
theorem c1_engine_write_failure_leaks_handle :
    (video_to_audio demoWorldWriteFail "videos/movie.mp4" none "mp3" "192k").2.opens = 1 ∧
    (video_to_audio demoWorldWriteFail "videos/movie.mp4" none "mp3" "192k").2.closes = 0 ∧
    lookupKey (video_to_audio demoWorldWriteFail "videos/movie.mp4" none "mp3" "192k").1
        "error_code" = some (Val.s "CONVERSION_ERROR") ∧
    (trim_video demoWorldWriteFail "videos/movie.mp4" 2 8 none).2.opens = 1 ∧
    (trim_video demoWorldWriteFail "videos/movie.mp4" 2 8 none).2.closes = 0 ∧
    lookupKey (trim_video demoWorldWriteFail "videos/movie.mp4" 2 8 none).1
        "error_code" = some (Val.s "TRIM_ERROR") :=
  ⟨rfl, rfl, rfl, rfl, rfl, rfl⟩

/-- C7 as stated is false: `end_time` is a required positional parameter of
`trim_video` with no default, so a call that omits it raises a TypeError at
binding time instead of trimming to the source duration — it does not
succeed even on an existing video with a valid start. -/
theorem c7_counterexample_end_time_required :
    trim_video_call demoWorld "videos/movie.mp4" (some 1) none none =
      PyCall.typeError ∧
    callSucceeded (trim_video_call demoWorld "videos/movie.mp4" (some 1) none none) =
      false :=
  ⟨rfl, rfl⟩

/-- C7 amended: omitting `end_time` is a TypeError for every start value;
to trim to the end of the source the caller must pass
`end_time = duration` explicitly, which (for `0 ≤ start < duration` and a
healthy engine) succeeds with the clip ending at the source's end. -/
theorem c7_trim_to_end_requires_explicit_end (w : World) (p : String)
    (props : MediaProps) (s : ℚ) (o : Option String)
    (hp : w.fs p = some props) (ho : w.openErr p = none) (hw : w.writeErr = none)
    (hs : 0 ≤ s) (hlt : s < props.duration) :
    (∀ st, trim_video_call w p st none o = PyCall.typeError) ∧
    trim_video w p s props.duration o =
      ([("success", Val.b true),
        ("output_file", Val.s (trimOutputPath p o)),
        ("duration", Val.q (subclipDuration s props.duration)),
        ("start_time", Val.q s),
        ("end_time", Val.q props.duration)],
       ⟨1, 1, 1, 0, none⟩) := by
  constructor
  · intro st
    cases st <;> rfl
  · simp only [trim_video, hp, ho, hw, if_neg (not_lt.mpr hs),
      if_neg (not_le.mpr hlt), if_neg (lt_irrefl props.duration)]

/-- Witness for the amended C7 on the 10-second demo video with start 2. -/
theorem c7_trim_to_end_requires_explicit_end_witness :
    demoWorld.fs "videos/movie.mp4" = some ⟨10, 30, 1280, 720, true, 2048⟩ ∧
    (0 : ℚ) ≤ 2 ∧ (2 : ℚ) < 10 ∧
    trim_video_call demoWorld "videos/movie.mp4" (some 2) none none =
      PyCall.typeError ∧
    lookupKey (trim_video demoWorld "videos/movie.mp4" 2 10 none).1 "success" =
      some (Val.b true) ∧
    lookupKey (trim_video demoWorld "videos/movie.mp4" 2 10 none).1 "output_file" =
      some (Val.s "movie_trimmed.mp4") ∧
    lookupKey (trim_video demoWorld "videos/movie.mp4" 2 10 none).1 "end_time" =
      some (Val.q 10) := by
  have h := c7_trim_to_end_requires_explicit_end demoWorld "videos/movie.mp4"
    ⟨10, 30, 1280, 720, true, 2048⟩ 2 none rfl rfl rfl (by norm_num) (by norm_num)
  refine ⟨rfl, by norm_num, by norm_num, h.1 (some 2), ?_, ?_, ?_⟩ <;>
  · rw [h.2]
    rfl

/-- C8 as stated is false: with `output_path` omitted, `video_to_audio` on
`videos/movie.mp4` resolves the output to the bare template name
`movie.mp3` — relative to the working directory, not under the
`data/outputs` root — and the call creates no directory. -/
theorem c8_counterexample_no_outputs_root :
    lookupKey (video_to_audio demoWorld "videos/movie.mp4" none "mp3" "192k").1
        "output_file" = some (Val.s "movie.mp3") ∧
    underRoot "data/outputs" "movie.mp3" = false ∧
    (video_to_audio demoWorld "videos/movie.mp4" none "mp3" "192k").2.mkdirs = 0 :=
  ⟨rfl, by decide, rfl⟩

/-- `openClips` on a list the engine opens without raising. -/
theorem openClips_ok (w : World) (ps : List String)
    (h : ∀ q ∈ ps, w.openErr q = none) :
    openClips w ps = (ps.length, none) := by
  induction ps with
  | nil => rfl
  | cons p ps ih =>
      simp only [openClips, h p (List.mem_cons_self p ps),
        ih (fun q hq => h q (List.mem_cons_of_mem p hq)), List.length_cons]

/-- `video_to_audio` never creates a directory. -/
theorem video_to_audio_mkdirs (w : World) (p : String) (o : Option String)
    (fmt br : String) : (video_to_audio w p o fmt br).2.mkdirs = 0 := by
  unfold video_to_audio
  split
  · rfl
  · split
    · rfl
    · split
      · rfl
      · split <;> rfl

/-- `concatenate_videos` never creates a directory. -/
theorem concatenate_videos_mkdirs (w : World) (vp : Option (List String))
    (o : Option String) : (concatenate_videos w vp o).2.mkdirs = 0 := by
  unfold concatenate_videos
  split
  · rfl
  · split
    · rfl
    · split
      · rfl
      · split
        · rfl
        · split <;> rfl

/-- `trim_video` never creates a directory. -/
theorem trim_video_mkdirs (w : World) (p : String) (s e : ℚ)
    (o : Option String) : (trim_video w p s e o).2.mkdirs = 0 := by
  unfold trim_video
  split
  · rfl
  · split
    · rfl
    · split
      · rfl
      · split
        · rfl
        · split
          · rfl
          · split <;> rfl

/-- `resize_video` never creates a directory. -/
theorem resize_video_mkdirs (w : World) (p : String) (wd ht : Option ℤ)
    (sc : Option ℚ) (o : Option String) :
    (resize_video w p wd ht sc o).2.mkdirs = 0 := by
  unfold resize_video
  split
  · rfl
  · split
    · rfl
    · split
      · rfl
      · split <;> rfl

/-- `extract_audio_segment` never creates a directory. -/
theorem extract_audio_segment_mkdirs (w : World) (p : String) (s e : ℚ)
    (o : Option String) : (extract_audio_segment w p s e o).2.mkdirs = 0 := by
  unfold extract_audio_segment
  split
  · rfl
  · split
    · rfl
    · split
      · rfl
      · split
        · rfl
        · split
          · rfl
          · split <;> rfl

/-- `get_video_info` never creates a directory. -/
theorem get_video_info_mkdirs (w : World) (p : String) :
    (get_video_info w p).2.mkdirs = 0 := by
  unfold get_video_info
  split
  · rfl
  · split <;> rfl

/-- C8 amended: with `output_path` omitted, the resolved output is the
fixed per-operation template over the source base name (`base.<format>`,
`base_trimmed.mp4`, `base_resized.mp4`, `base_segment<ext>`, or the fixed
`concatenated_output.mp4`), taken relative to the working directory — no
outputs root is applied — and no operation ever creates a directory. -/
theorem c8_output_templates (w : World) (p : String) (props : MediaProps)
    (o : Option String) (fmt br : String) (s e : ℚ) (paths : List String)
    (vp : Option (List String)) (wd ht : Option ℤ) (sc : Option ℚ)
    (hp : w.fs p = some props) (ho : w.openErr p = none) (hw : w.writeErr = none)
    (haud : props.hasAudio = true)
    (hs : 0 ≤ s) (hse : s < e) (hdur : e ≤ props.duration)
    (hparam : ¬(wd = none ∧ ht = none ∧ sc = none))
    (hlen : 2 ≤ paths.length) (hex : ∀ q ∈ paths, (w.fs q).isSome = true)
    (hop : ∀ q ∈ paths, w.openErr q = none) :
    lookupKey (video_to_audio w p none fmt br).1 "output_file" =
      some (Val.s (splitextBase (basename p) ++ "." ++ fmt)) ∧
    lookupKey (trim_video w p s e none).1 "output_file" =
      some (Val.s (splitextBase (basename p) ++ "_trimmed.mp4")) ∧
    lookupKey (resize_video w p wd ht sc none).1 "output_file" =
      some (Val.s (splitextBase (basename p) ++ "_resized.mp4")) ∧
    lookupKey (extract_audio_segment w p s e none).1 "output_file" =
      some (Val.s (splitextBase (basename p) ++ "_segment" ++ splitextExt p)) ∧
    lookupKey (concatenate_videos w (some paths) none).1 "output_file" =
      some (Val.s "concatenated_output.mp4") ∧
    (video_to_audio w p o fmt br).2.mkdirs = 0 ∧
    (concatenate_videos w vp o).2.mkdirs = 0 ∧
    (trim_video w p s e o).2.mkdirs = 0 ∧
    (resize_video w p wd ht sc o).2.mkdirs = 0 ∧
    (extract_audio_segment w p s e o).2.mkdirs = 0 ∧
    (get_video_info w p).2.mkdirs = 0 := by
  refine ⟨?_, ?_, ?_, ?_, ?_, video_to_audio_mkdirs w p o fmt br,
    concatenate_videos_mkdirs w vp o, trim_video_mkdirs w p s e o,
    resize_video_mkdirs w p wd ht sc o, extract_audio_segment_mkdirs w p s e o,
    get_video_info_mkdirs w p⟩
  · simp only [video_to_audio, hp, ho, hw]
    rw [if_neg (by simp [haud])]
    rfl
  · simp only [trim_video, hp, ho, hw, if_neg (not_lt.mpr hs),
      if_neg (not_le.mpr hse), if_neg (not_lt.mpr hdur)]
    rfl
  · simp only [resize_video, hp, ho, hw, if_neg hparam]
    rfl
  · simp only [extract_audio_segment, hp, ho, hw, if_neg (not_lt.mpr hs),
      if_neg (not_le.mpr hse), if_neg (not_lt.mpr hdur)]
    rfl
  · have hfind : paths.find? (fun q => (w.fs q).isNone) = none :=
      List.find?_eq_none.mpr (fun q hq => by
        have h1 := hex q hq
        rcases h2 : w.fs q with _ | pr
        · rw [h2] at h1
          exact absurd h1 (by simp)
        · simp [h2])
    simp only [concatenate_videos, if_neg (not_lt.mpr hlen), hfind,
      openClips_ok w paths hop, hw]
    rfl

/-- Witness for the amended C8 on the demo files: all five templates at
concrete inputs. -/
theorem c8_output_templates_witness :
    demoWorld.fs "videos/movie.mp4" = some ⟨10, 30, 1280, 720, true, 2048⟩ ∧
    lookupKey (video_to_audio demoWorld "videos/movie.mp4" none "mp3" "192k").1
        "output_file" = some (Val.s "movie.mp3") ∧
    lookupKey (trim_video demoWorld "videos/movie.mp4" 2 8 none).1 "output_file" =
      some (Val.s "movie_trimmed.mp4") ∧
    lookupKey (resize_video demoWorld "videos/movie.mp4" (some 640) none none
        none).1 "output_file" = some (Val.s "movie_resized.mp4") ∧
    lookupKey (extract_audio_segment demoWorld "videos/movie.mp4" 2 8 none).1
        "output_file" = some (Val.s "movie_segment.mp4") ∧
    lookupKey (concatenate_videos demoWorld
        (some ["videos/movie.mp4", "videos/clip2.mp4"]) none).1 "output_file" =
      some (Val.s "concatenated_output.mp4") := by
  have h := c8_output_templates demoWorld "videos/movie.mp4"
    ⟨10, 30, 1280, 720, true, 2048⟩ none "mp3" "192k" 2 8
    ["videos/movie.mp4", "videos/clip2.mp4"] none (some 640) none none
    rfl rfl rfl rfl (by norm_num) (by norm_num) (by norm_num) (by simp)
    (by decide) (by decide) (by decide)
  exact ⟨rfl, h.1.trans (by rfl), h.2.1.trans (by rfl), h.2.2.1.trans (by rfl),
    h.2.2.2.1.trans (by rfl), h.2.2.2.2.1⟩

end MainPy
